import Mathlib

/-!
Shallow embedding of `src/mesh2cot.py` (Meshtastic → Cursor-on-Target converter).

Modelling conventions:
* Environment-variable configuration is modelled at its documented defaults
  (`ATAK_HOST`, `ATAK_PORT`, `UNIT_TYPE`, `UNIT_TEAM`, `UNIT_ROLE`), since the
  spec's claims are about the configured destination and constant fields.
* Python dictionaries with optional keys become structures with `Option`
  fields; a `KeyError` raised by a missing subscript becomes `PyErr.keyError`.
* The impure clock calls in `makeCoT` (`gmtime()` for `time`, `gmtime()` for
  `start`, `time()` for `stale`, in source order, lines 57-59) become an
  explicit `Clock3` of three rational instants, passed in read order.
* `time.gmtime` truncates its (nonnegative) argument to whole seconds; this is
  `ratFloorNonneg`.  `strftime('%Y-%m-%dT%H:%M:%S.000Z', ...)` is `fmtTime`,
  with the UTC calendar conversion `civilFromDays` (the standard civil-from-days
  algorithm used by C libraries).
* Python `'%08x' % n` is `hex8` (lower-case hex, zero-padded to width 8);
  `'%f' % x` is `fmtFixed6` (sign, integer part, 6 fractional digits), with
  latitudes/longitudes modelled as rationals; `'%d' % n` is `toString`.
* `xml.etree.ElementTree` trees become the nested inductive `Element`;
  `ET.tostring` with its default serializer (attributes in insertion order,
  short empty elements, attribute/text escaping) is `serializeElement`.
* The UDP send (lines 138-140) is modelled by a trace of `SockOp`s plus a
  `sendOk` flag: `sendOk = false` models `sendto` raising `OSError`; the
  returned list of strings is the list of datagrams actually delivered.
-/

/-- Default `ATAK_HOST` (line 22). -/
def ATAK_HOST : String := "239.2.3.1"

/-- Default `ATAK_PORT` (line 23). -/
def ATAK_PORT : Nat := 6969

/-- Default `UNIT_TYPE` (line 28). -/
def UNIT_TYPE : String := "a-f-G-U-C"

/-- Default `UNIT_TEAM` (line 29). -/
def UNIT_TEAM : String := "Green"

/-- Default `UNIT_ROLE` (line 30). -/
def UNIT_ROLE : String := "Team Member"

/-- Constant `REMARK` (line 31). -/
def REMARK : String := ""

/-- Constant `POINT_EVT_TTL` (line 34), seconds. -/
def POINT_EVT_TTL : Nat := 120

/-- Constant `UUID_ROOT` (line 42). -/
def UUID_ROOT : String := "7ea452c5-a1ec-571c-a7ac"

/-- Lower-case hexadecimal digit character, as produced by Python `%x`. -/
def hexDigit (n : Nat) : Char :=
  if n < 10 then Char.ofNat (48 + n) else Char.ofNat (87 + n)

/-- Little-endian hex digits of `n` (empty for 0); fuel-based structural
recursion, `fuel = n` always suffices since `n < 16 ^ n`. -/
def natToHexRev : Nat → Nat → List Char
  | 0, _ => []
  | fuel + 1, n => if n = 0 then [] else hexDigit (n % 16) :: natToHexRev fuel (n / 16)

/-- Big-endian hex digits of `n`, `['0']` for 0 — Python `'%x' % n`. -/
def natToHex (n : Nat) : List Char :=
  if n = 0 then ['0'] else (natToHexRev n n).reverse

/-- Python `'%08x' % n`: `natToHex n` left-padded with `'0'` to width 8. -/
def hex8 (n : Nat) : List Char :=
  List.replicate (8 - (natToHex n).length) '0' ++ natToHex n

/-- String form of `hex8`. -/
def hex8Str (n : Nat) : String := ⟨hex8 n⟩

/-- Callsign derivation `'mesh-%08x' % packet['from']` (line 127). -/
def callsignOf (sourceId : Nat) : String := "mesh-" ++ hex8Str sourceId

/-- UID derivation `UUID_ROOT + '-00%08x' % packet['from']` (line 128). -/
def uidOf (sourceId : Nat) : String := UUID_ROOT ++ ("-00" ++ hex8Str sourceId)

/-- Numeric value of a lower-case hex digit character. -/
def hexCharVal (c : Char) : Nat :=
  if 97 ≤ c.toNat then c.toNat - 87 else c.toNat - 48

/-- Parse a big-endian list of hex digit characters. -/
def hexParse (l : List Char) : Nat :=
  l.foldl (fun a c => 16 * a + hexCharVal c) 0

/-- Lower-case hexadecimal digit predicate. -/
def isLowerHexDigit (c : Char) : Bool :=
  (48 ≤ c.toNat && c.toNat ≤ 57) || (97 ≤ c.toNat && c.toNat ≤ 102)

/-- Truncation of a nonnegative rational instant to whole seconds, as
`time.gmtime` does to its argument. -/
def ratFloorNonneg (q : ℚ) : Nat := (q.num / (q.den : Int)).toNat

/-- Zero-pad a natural to two decimal digits (`%m`, `%d`, `%H`, `%M`, `%S`). -/
def pad2 (n : Nat) : String := if n < 10 then "0" ++ toString n else toString n

/-- Civil date (year, month, day) from days since 1970-01-01 (the standard
era-based algorithm used by C library `gmtime` implementations). -/
def civilFromDays (z : Nat) : Nat × Nat × Nat :=
  let z2 := z + 719468
  let era := z2 / 146097
  let doe := z2 % 146097
  let yoe := (doe - doe / 1460 + doe / 36524 - doe / 146097) / 365
  let y := yoe + era * 400
  let doy := doe - (365 * yoe + yoe / 4 - yoe / 100)
  let mp := (5 * doy + 2) / 153
  let d := doy - (153 * mp + 2) / 5 + 1
  let m := if mp < 10 then mp + 3 else mp - 9
  (if m ≤ 2 then y + 1 else y, m, d)

/-- Model of `strftime(TIME_FORMAT, gmtime-struct)` with
`TIME_FORMAT = '%Y-%m-%dT%H:%M:%S.000Z'` (line 37): the fractional-second
field is the literal text `.000`. -/
def fmtTime (secs : Nat) : String :=
  let ymd := civilFromDays (secs / 86400)
  let s := secs % 86400
  toString ymd.1 ++ "-" ++ pad2 ymd.2.1 ++ "-" ++ pad2 ymd.2.2 ++ "T" ++
    pad2 (s / 3600) ++ ":" ++ pad2 (s % 3600 / 60) ++ ":" ++ pad2 (s % 60) ++ ".000Z"

/-- The three clock instants read by `makeCoT`, in source order: `gmtime()` for
`time` (line 57), `gmtime()` for `start` (line 58), `time()` for `stale`
(line 59). -/
structure Clock3 where
  t1 : ℚ
  t2 : ℚ
  t3 : ℚ

/-- Whole-second epoch used for the `time` attribute. -/
def eventTimeEpoch (c : Clock3) : Nat := ratFloorNonneg c.t1

/-- Whole-second epoch used for the `start` attribute. -/
def eventStartEpoch (c : Clock3) : Nat := ratFloorNonneg c.t2

/-- Whole-second epoch used for the `stale` attribute:
`gmtime(time() + POINT_EVT_TTL)`. -/
def eventStaleEpoch (c : Clock3) : Nat := ratFloorNonneg (c.t3 + (POINT_EVT_TTL : ℚ))

/-- An `xml.etree.ElementTree` element: tag name, attributes in insertion order,
children, text (`""` models Python `None`/empty text — both serialize to
nothing). -/
inductive Element where
  | mk (name : String) (attrib : List (String × String)) (children : List Element)
      (text : String)

/-- Tag name of an element. -/
def Element.name : Element → String
  | .mk n _ _ _ => n

/-- Attribute list of an element. -/
def Element.attrib : Element → List (String × String)
  | .mk _ a _ _ => a

/-- Children of an element. -/
def Element.children : Element → List Element
  | .mk _ _ c _ => c

/-- Text of an element. -/
def Element.text : Element → String
  | .mk _ _ _ t => t

/-- The `xml.etree.ElementTree` attribute-value escaping. -/
def escAttribChar (c : Char) : String :=
  if c = '&' then "&amp;"
  else if c = '<' then "&lt;"
  else if c = '>' then "&gt;"
  else if c = '\"' then "&quot;"
  else if c = '\r' then "&#13;"
  else if c = '\n' then "&#10;"
  else if c = '\t' then "&#09;"
  else String.singleton c

/-- Escape an attribute value. -/
def escapeAttrib (s : String) : String := String.join (s.data.map escAttribChar)

/-- The `xml.etree.ElementTree` text escaping. -/
def escTextChar (c : Char) : String :=
  if c = '&' then "&amp;"
  else if c = '<' then "&lt;"
  else if c = '>' then "&gt;"
  else String.singleton c

/-- Escape element text. -/
def escapeText (s : String) : String := String.join (s.data.map escTextChar)

/-- Serialize an attribute list in insertion order. -/
def serializeAttrs (l : List (String × String)) : String :=
  String.join (l.map (fun p => " " ++ p.1 ++ "=\"" ++ escapeAttrib p.2 ++ "\""))

mutual

/-- Body of `ET.tostring` with its default short-empty-element serializer. -/
def serializeElement : Element → String
  | .mk n a c t =>
    "<" ++ n ++ serializeAttrs a ++
      (if t.isEmpty && c.isEmpty then " />"
       else ">" ++ escapeText t ++ serializeChildren c ++ "</" ++ n ++ ">")

/-- Serialize a list of children in order. -/
def serializeChildren : List Element → String
  | [] => ""
  | e :: es => serializeElement e ++ serializeChildren es

end

/-- The XML declaration prepended on line 102. -/
def xmlDecl : String := "<?xml version=\"1.0\" standalone=\"yes\"?>"

/-- The element tree built by `makeCoT` (lines 50-100).  `batt` is the Python
parameter that is either `False` (here `none`) or a string; the `if (batt)`
truthiness test on line 98 is false for `none` and for the empty string. -/
def cotElement (callsign uuid lat lon alt : String) (batt : Option String)
    (clock : Clock3) : Element :=
  Element.mk "event"
    [("version", "2.0"), ("uid", uuid), ("time", fmtTime (eventTimeEpoch clock)),
     ("start", fmtTime (eventStartEpoch clock)),
     ("stale", fmtTime (eventStaleEpoch clock)), ("type", UNIT_TYPE), ("how", "m-g")]
    [Element.mk "point"
       [("lat", lat), ("lon", lon), ("hae", alt), ("ce", "9999999.0"),
        ("le", "9999999.0")] [] "",
     Element.mk "detail" []
       ([Element.mk "contact" [("callsign", callsign)] [] "",
         Element.mk "uid" [("Droid", callsign)] [] "",
         Element.mk "remarks" [] [] REMARK,
         Element.mk "__group" [("name", UNIT_TEAM), ("role", UNIT_ROLE)] [] "",
         Element.mk "takv"
           [("device", "MESH2COT"), ("platform", "ATAK"), ("version", "3.8-COMPAT"),
            ("os", "23")] [] ""] ++
        (match batt with
         | some b => if b = "" then [] else [Element.mk "status" [("battery", b)] [] ""]
         | none => []) ++
        [Element.mk "precisionlocation" [("geopointsrc", "GPS"), ("altsrc", "GPS")] [] ""])
       ""]
    ""

/-- Model of `makeCoT` (lines 45-105): XML declaration followed immediately by the
serialized element tree, as one byte sequence. -/
def makeCoT (callsign uuid lat lon alt : String) (batt : Option String)
    (clock : Clock3) : String :=
  xmlDecl ++ serializeElement (cotElement callsign uuid lat lon alt batt clock)

/-- Position sub-record of a decoded packet (all fields optional). -/
structure Position where
  latitude : Option ℚ
  longitude : Option ℚ
  altitude : Option ℚ
  batteryLevel : Option Int

/-- Decoded payload of a packet. -/
structure Decoded where
  position : Option Position

/-- An inbound packet notification; `fromId` models `packet['from']`,
`decoded` models `packet['decoded']`; `none` means the key is absent. -/
structure Packet where
  fromId : Option Nat
  decoded : Option Decoded

/-- Python exceptions that can escape `onReceive`. -/
inductive PyErr where
  | keyError
  | osError
deriving DecidableEq

/-- Socket operations performed by `onReceive` (lines 138-140). -/
inductive SockOp where
  | openSock
  | sendto (data : String) (host : String) (port : Nat)
  | closeSock
deriving DecidableEq

/-- Is a socket operation a `sendto`? -/
def SockOp.isSend : SockOp → Bool
  | .sendto _ _ _ => true
  | _ => false

/-- Python `'%f' % x` for a rational: sign, integer part, exactly six
fractional digits.  The scaled magnitude `|q| * 10 ^ 6` is rounded to the
nearest integer, half away from zero, computed in integer arithmetic:
`round(a / b) = (2 * a + b) / (2 * b)` with `a = |num| * 10 ^ 6`, `b = den`. -/
def fmtFixed6 (q : ℚ) : String :=
  let sgn := if q.num < 0 then "-" else ""
  let s : Nat := (2 * q.num.natAbs * 1000000 + q.den) / (2 * q.den)
  let frac := toString (s % 1000000)
  sgn ++ toString (s / 1000000) ++ "." ++
    String.mk (List.replicate (6 - frac.length) '0' ++ frac.data)

/-- Line 133: `('%d' % batt) if batt else False` combined with the
`try/except KeyError` of lines 117-120 — an absent `batteryLevel` yields
`False`, and Python integer truthiness drops a present value of `0`. -/
def battArg : Option Int → Option String
  | none => none
  | some v => if v = 0 then none else some (toString v)

/-- Model of `onReceive` (lines 108-141).  Returns the socket-operation trace and
either the list of delivered datagrams or the Python exception that escapes
the handler.  `sendOk = false` models `sendto` raising `OSError`. -/
def onReceive (packet : Packet) (clock : Clock3) (sendOk : Bool) :
    List SockOp × Except PyErr (List String) :=
  match packet.decoded with
  | none => ([], .error .keyError)
  | some decoded =>
    match decoded.position with
    | none => ([], .ok [])
    | some pos =>
      match pos.latitude, pos.longitude with
      | some lat, some lon =>
        match packet.fromId with
        | none => ([], .error .keyError)
        | some frm =>
          let cot := makeCoT (callsignOf frm) (uidOf frm) (fmtFixed6 lat)
            (fmtFixed6 lon) "9999999.0" (battArg pos.batteryLevel) clock
          if sendOk then
            ([.openSock, .sendto cot ATAK_HOST ATAK_PORT, .closeSock], .ok [cot])
          else
            ([.openSock, .sendto cot ATAK_HOST ATAK_PORT], .error .osError)
      | _, _ => ([], .ok [])

/-- Children of `e` whose tag is `nm`. -/
def childrenNamed (e : Element) (nm : String) : List Element :=
  e.children.filter (fun c => c.name == nm)

/-- Attribute lookup in an element. -/
def attrLookup (e : Element) (k : String) : Option String :=
  (e.attrib.find? (fun p => p.1 == k)).map (fun p => p.2)

/-- The `point` children of an event element. -/
def pointElems (e : Element) : List Element := childrenNamed e "point"

/-- The `status` (battery) elements inside the `detail` children. -/
def batteryStatusElems (e : Element) : List Element :=
  ((childrenNamed e "detail").map (fun d => childrenNamed d "status")).flatten

/-- The `contact` elements inside the `detail` children. -/
def contactElems (e : Element) : List Element :=
  ((childrenNamed e "detail").map (fun d => childrenNamed d "contact")).flatten

/-- The end-to-end example packet of the spec:
`{from: 0x1A2B3C4D, decoded: {position: {latitude: 45.123456,
longitude: -93.654321}}}`. -/
def packet5 : Packet :=
  ⟨some 0x1A2B3C4D,
   some ⟨some ⟨some ((45123456 : ℚ) / 1000000), some ((-93654321 : ℚ) / 1000000),
     none, none⟩⟩⟩

/-- A hex digit character decodes back to its value. -/
theorem hexCharVal_hexDigit (d : Nat) (h : d < 16) : hexCharVal (hexDigit d) = d := by
  interval_cases d <;> rfl

/-- A hex digit character is a lower-case hexadecimal digit. -/
theorem isLowerHexDigit_hexDigit (d : Nat) (h : d < 16) :
    isLowerHexDigit (hexDigit d) = true := by
  interval_cases d <;> rfl

/-- Appending one digit multiplies the parsed value by 16 and adds the digit. -/
theorem hexParse_append (l : List Char) (c : Char) :
    hexParse (l ++ [c]) = 16 * hexParse l + hexCharVal c := by
  simp [hexParse, List.foldl_append]

/-- Parsing inverts `natToHexRev` (for sufficient fuel). -/
theorem hexParse_natToHexRev (fuel : Nat) : ∀ n : Nat, n < 16 ^ fuel →
    hexParse ((natToHexRev fuel n).reverse) = n := by
  induction fuel with
  | zero =>
    intro n h
    simp only [pow_zero, Nat.lt_one_iff] at h
    subst h; rfl
  | succ f ih =>
    intro n h
    by_cases h0 : n = 0
    · subst h0; rfl
    · have hdiv : n / 16 < 16 ^ f := by
        have h2 : n < 16 * 16 ^ f := by rw [← pow_succ']; exact h
        exact Nat.div_lt_of_lt_mul h2
      have hmod : n % 16 < 16 := Nat.mod_lt _ (by norm_num)
      simp only [natToHexRev, if_neg h0, List.reverse_cons]
      rw [hexParse_append, ih (n / 16) hdiv, hexCharVal_hexDigit _ hmod]
      omega

/-- Every natural is below `16 ^` itself. -/
theorem n_lt_16_pow (n : Nat) : n < 16 ^ n := Nat.lt_pow_self (by norm_num) n

/-- Parsing inverts `natToHex`. -/
theorem hexParse_natToHex (n : Nat) : hexParse (natToHex n) = n := by
  by_cases h0 : n = 0
  · subst h0; rfl
  · rw [natToHex, if_neg h0]
    exact hexParse_natToHexRev n n (n_lt_16_pow n)

/-- Leading zero characters do not change the parsed value. -/
theorem hexParse_replicate_zero (k : Nat) (l : List Char) :
    hexParse (List.replicate k '0' ++ l) = hexParse l := by
  induction k with
  | zero => rfl
  | succ m ih =>
    rw [List.replicate_succ, List.cons_append]
    have h1 : hexParse ('0' :: (List.replicate m '0' ++ l)) =
        hexParse (List.replicate m '0' ++ l) := rfl
    rw [h1, ih]

/-- Parsing inverts the zero-padded 8-digit formatting. -/
theorem hexParse_hex8 (n : Nat) : hexParse (hex8 n) = n := by
  rw [hex8, hexParse_replicate_zero, hexParse_natToHex]

/-- Formatting with `'%08x'` is injective. -/
theorem hex8_injective (n m : Nat) (h : hex8 n = hex8 m) : n = m := by
  rw [← hexParse_hex8 n, ← hexParse_hex8 m, h]

/-- The map `hex8Str` is injective. -/
theorem hex8Str_injective (n m : Nat) (h : hex8Str n = hex8Str m) : n = m :=
  hex8_injective n m (congrArg String.data h)

/-- Digit-count bound for `natToHexRev`. -/
theorem natToHexRev_length (fuel : Nat) : ∀ n k : Nat, n < 16 ^ k →
    (natToHexRev fuel n).length ≤ k := by
  induction fuel with
  | zero => intro n k _; simp [natToHexRev]
  | succ f ih =>
    intro n k h
    by_cases h0 : n = 0
    · subst h0; simp [natToHexRev]
    · cases k with
      | zero =>
        exfalso
        simp only [pow_zero, Nat.lt_one_iff] at h
        exact h0 h
      | succ k2 =>
        have hdiv : n / 16 < 16 ^ k2 := by
          have h2 : n < 16 * 16 ^ k2 := by rw [← pow_succ']; exact h
          exact Nat.div_lt_of_lt_mul h2
        simp only [natToHexRev, if_neg h0, List.length_cons]
        have := ih (n / 16) k2 hdiv
        omega

/-- For 32-bit values, `natToHex` emits at most 8 digits. -/
theorem natToHex_length_le (n : Nat) (h : n < 16 ^ 8) : (natToHex n).length ≤ 8 := by
  by_cases h0 : n = 0
  · subst h0; simp [natToHex]
  · rw [natToHex, if_neg h0, List.length_reverse]
    exact natToHexRev_length n n 8 h

/-- For 32-bit values, `'%08x'` emits exactly 8 characters. -/
theorem hex8_length (n : Nat) (h : n < 2 ^ 32) : (hex8 n).length = 8 := by
  have h16 : n < 16 ^ 8 := by
    have : (2 : Nat) ^ 32 = 16 ^ 8 := by norm_num
    omega
  have hle := natToHex_length_le n h16
  rw [hex8, List.length_append, List.length_replicate]
  omega

/-- Every character of `natToHexRev` is a lower-case hex digit. -/
theorem natToHexRev_chars (fuel : Nat) : ∀ n : Nat, ∀ c ∈ natToHexRev fuel n,
    isLowerHexDigit c = true := by
  induction fuel with
  | zero => intro n c hc; simp [natToHexRev] at hc
  | succ f ih =>
    intro n c hc
    by_cases h0 : n = 0
    · subst h0; simp [natToHexRev] at hc
    · simp only [natToHexRev, if_neg h0] at hc
      rcases List.mem_cons.mp hc with h1 | h1
      · subst h1
        exact isLowerHexDigit_hexDigit _ (Nat.mod_lt _ (by norm_num))
      · exact ih _ _ h1

/-- Every character of `'%08x'` output is a lower-case hex digit. -/
theorem hex8_chars (n : Nat) : ∀ c ∈ hex8 n, isLowerHexDigit c = true := by
  intro c hc
  rw [hex8] at hc
  rcases List.mem_append.mp hc with h1 | h1
  · rw [List.eq_of_mem_replicate h1]; rfl
  · rw [natToHex] at h1
    by_cases h0 : n = 0
    · rw [if_pos h0] at h1
      simp only [List.mem_singleton] at h1
      rw [h1]; rfl
    · rw [if_neg h0] at h1
      exact natToHexRev_chars n n c (List.mem_reverse.mp h1)

/-- Left-cancellation for string concatenation. -/
theorem string_append_cancel_left (p s t : String) (h : p ++ s = p ++ t) : s = t := by
  have h2 := congrArg String.data h
  simp only [String.data_append] at h2
  exact String.ext (List.append_cancel_left h2)

/-- The map `ratFloorNonneg` is the (clamped) rational floor. -/
theorem ratFloorNonneg_eq (q : ℚ) : ratFloorNonneg q = (⌊q⌋).toNat := by
  rw [Rat.floor_def]
  rfl

/-- Under a monotone nonnegative clock, the `time` epoch never exceeds the
`start` epoch. -/
theorem eventEpoch_mono (c : Clock3) (h12 : c.t1 ≤ c.t2) :
    eventTimeEpoch c ≤ eventStartEpoch c := by
  rw [eventTimeEpoch, eventStartEpoch, ratFloorNonneg_eq, ratFloorNonneg_eq]
  have f12 : ⌊c.t1⌋ ≤ ⌊c.t2⌋ := Int.floor_le_floor h12
  omega

/-- The `stale` epoch is the whole-second floor of the third clock read plus
the TTL. -/
theorem eventStaleEpoch_eq (c : Clock3) :
    eventStaleEpoch c = (⌊c.t3⌋ + (POINT_EVT_TTL : Int)).toNat := by
  rw [eventStaleEpoch, ratFloorNonneg_eq, Int.floor_add_nat]

/-- One-step unfolding of `Nat.toDigitsCore` at positive fuel. -/
theorem toDigitsCore_succ_eq (b fuel n : Nat) (ds : List Char) :
    Nat.toDigitsCore b (fuel + 1) n ds =
      if n / b = 0 then Nat.digitChar (n % b) :: ds
      else Nat.toDigitsCore b fuel (n / b) (Nat.digitChar (n % b) :: ds) := rfl

/-- At zero fuel `Nat.toDigitsCore` returns the accumulator. -/
theorem toDigitsCore_zero_eq (b n : Nat) (ds : List Char) :
    Nat.toDigitsCore b 0 n ds = ds := rfl

/-- Decimal digit lists produced by `Nat.toDigitsCore` with positive fuel are
longer than the accumulator. -/
theorem toDigitsCore_length_gt (b : Nat) :
    ∀ (fuel n : Nat) (ds : List Char),
      ds.length < (Nat.toDigitsCore b (fuel + 1) n ds).length := by
  intro fuel
  induction fuel with
  | zero =>
    intro n ds
    rw [toDigitsCore_succ_eq]
    split
    · simp
    · rw [toDigitsCore_zero_eq]; simp
  | succ f ih =>
    intro n ds
    rw [toDigitsCore_succ_eq]
    split
    · simp
    · have h2 := ih (n / b) (Nat.digitChar (n % b) :: ds)
      simp only [List.length_cons] at h2
      omega

/-- Decimal representations of naturals are never the empty string. -/
theorem nat_repr_ne_empty (n : Nat) : Nat.repr n ≠ "" := by
  intro h
  have h3 : Nat.toDigits 10 n = ([] : List Char) := congrArg String.data h
  have h4 := toDigitsCore_length_gt 10 n n []
  rw [Nat.toDigits] at h3
  rw [h3] at h4
  simp at h4

/-- Rendering an integer with `'%d'` never yields the empty string. -/
theorem int_toString_ne_empty (b : Int) : toString b ≠ "" := by
  cases b with
  | ofNat m => exact nat_repr_ne_empty m
  | negSucc m =>
    intro h
    have h2 : ('-' :: (Nat.repr (m + 1)).data) = ([] : List Char) :=
      congrArg String.data h
    exact absurd h2 (by simp)

/-- C1: for every 32-bit `sourceId` the derived `uid` is the fixed prefix
`7ea452c5-a1ec-571c-a7ac-00` followed by the `sourceId` as exactly 8
lower-case zero-padded hex digits, the `callsign` is `mesh-` followed by the
same 8 digits, both are (definitionally pure) functions of `sourceId` alone,
and distinct 32-bit `sourceId` values collide on neither. -/
theorem claim_C1 (n m : Nat) (hn : n < 2 ^ 32) (_hm : m < 2 ^ 32) (hnm : n ≠ m) :
    (∃ d : List Char, d.length = 8 ∧ (∀ c ∈ d, isLowerHexDigit c = true) ∧
      uidOf n = "7ea452c5-a1ec-571c-a7ac-00" ++ String.mk d ∧
      callsignOf n = "mesh-" ++ String.mk d) ∧
    uidOf n ≠ uidOf m ∧ callsignOf n ≠ callsignOf m := by
  refine ⟨⟨hex8 n, hex8_length n hn, hex8_chars n, rfl, rfl⟩, ?_, ?_⟩
  · intro h
    unfold uidOf at h
    have h2 := string_append_cancel_left _ _ _ h
    have h3 := string_append_cancel_left _ _ _ h2
    exact hnm (hex8Str_injective n m h3)
  · intro h
    unfold callsignOf at h
    exact hnm (hex8Str_injective n m (string_append_cancel_left _ _ _ h))

/-- Witness for C1 at `sourceId` values 0 and 1. -/
theorem claim_C1_witness :
    ((∃ d : List Char, d.length = 8 ∧ (∀ c ∈ d, isLowerHexDigit c = true) ∧
      uidOf 0 = "7ea452c5-a1ec-571c-a7ac-00" ++ String.mk d ∧
      callsignOf 0 = "mesh-" ++ String.mk d) ∧
    uidOf 0 ≠ uidOf 1 ∧ callsignOf 0 ≠ callsignOf 1) :=
  claim_C1 0 1 (by norm_num) (by norm_num) (by norm_num)

/-- C4 (amended): under a monotone nonnegative clock the `stale` epoch exceeds
the `start` epoch by at least the TTL, and by exactly the TTL whenever the
second and third clock reads fall within the same whole second; the `start`
epoch never precedes the `time` epoch.  (The original claim's "by exactly the
TTL" fails because `start` and `stale` come from two separate clock reads;
see the counterexample.) -/
theorem claim_C4_amended (c : Clock3) (h0 : 0 ≤ c.t1) (h12 : c.t1 ≤ c.t2)
    (h23 : c.t2 ≤ c.t3) :
    eventStartEpoch c + POINT_EVT_TTL ≤ eventStaleEpoch c ∧
    (⌊c.t2⌋ = ⌊c.t3⌋ → eventStaleEpoch c = eventStartEpoch c + POINT_EVT_TTL) ∧
    eventTimeEpoch c ≤ eventStartEpoch c := by
  have e2 : eventStartEpoch c = (⌊c.t2⌋).toNat := ratFloorNonneg_eq _
  have e3 := eventStaleEpoch_eq c
  have f0 : (0 : Int) ≤ ⌊c.t1⌋ := Int.floor_nonneg.mpr h0
  have f12 : ⌊c.t1⌋ ≤ ⌊c.t2⌋ := Int.floor_le_floor h12
  have f23 : ⌊c.t2⌋ ≤ ⌊c.t3⌋ := Int.floor_le_floor h23
  have ht : (POINT_EVT_TTL : Int) = 120 := rfl
  have htn : POINT_EVT_TTL = 120 := rfl
  refine ⟨?_, ?_, eventEpoch_mono c h12⟩
  · rw [e2, e3]; omega
  · intro heq; rw [e2, e3, heq]; omega

/-- Witness for C4 (amended) at the constant clock 0. -/
theorem claim_C4_amended_witness :
    eventStartEpoch ⟨0, 0, 0⟩ + POINT_EVT_TTL ≤ eventStaleEpoch ⟨0, 0, 0⟩ ∧
    (⌊(⟨0, 0, 0⟩ : Clock3).t2⌋ = ⌊(⟨0, 0, 0⟩ : Clock3).t3⌋ →
      eventStaleEpoch ⟨0, 0, 0⟩ = eventStartEpoch ⟨0, 0, 0⟩ + POINT_EVT_TTL) ∧
    eventTimeEpoch ⟨0, 0, 0⟩ ≤ eventStartEpoch ⟨0, 0, 0⟩ :=
  claim_C4_amended ⟨0, 0, 0⟩ le_rfl le_rfl le_rfl

/-- The `start` attribute of the built tree is the rendering of the second
clock read. -/
theorem cotElement_attr_start (cs u la lo al : String) (b : Option String)
    (c : Clock3) :
    attrLookup (cotElement cs u la lo al b c) "start" =
      some (fmtTime (eventStartEpoch c)) := rfl

/-- The `stale` attribute of the built tree is the rendering of the third
clock read plus the TTL. -/
theorem cotElement_attr_stale (cs u la lo al : String) (b : Option String)
    (c : Clock3) :
    attrLookup (cotElement cs u la lo al b c) "stale" =
      some (fmtTime (eventStaleEpoch c)) := rfl

/-- C4 counterexample: with the monotone clock reads (0.5, 0.9, 1.0) the
built event's `stale` epoch is 121 seconds while its `start` epoch is 0, so
`stale - start` is 121 seconds, not exactly the 120-second TTL; the attribute
strings of the built document show the same 121-second gap. -/
theorem claim_C4_counterexample :
    (0 : ℚ) ≤ (1 : ℚ) / 2 ∧ (1 : ℚ) / 2 ≤ (9 : ℚ) / 10 ∧ (9 : ℚ) / 10 ≤ (1 : ℚ) ∧
    eventStartEpoch ⟨1 / 2, 9 / 10, 1⟩ = 0 ∧
    eventStaleEpoch ⟨1 / 2, 9 / 10, 1⟩ = 121 ∧
    eventStaleEpoch ⟨1 / 2, 9 / 10, 1⟩ - eventStartEpoch ⟨1 / 2, 9 / 10, 1⟩ ≠
      POINT_EVT_TTL ∧
    attrLookup (cotElement "cs" "u" "la" "lo" "al" none ⟨1 / 2, 9 / 10, 1⟩) "start" =
      some "1970-01-01T00:00:00.000Z" ∧
    attrLookup (cotElement "cs" "u" "la" "lo" "al" none ⟨1 / 2, 9 / 10, 1⟩) "stale" =
      some "1970-01-01T00:02:01.000Z" := by
  have hf2 : ⌊(9 : ℚ) / 10⌋ = 0 := by rw [Int.floor_eq_iff]; norm_num
  have hf3 : ⌊(1 : ℚ)⌋ = 1 := Int.floor_one
  have hstart : eventStartEpoch ⟨1 / 2, 9 / 10, 1⟩ = 0 := by
    simp only [eventStartEpoch, ratFloorNonneg_eq]
    rw [hf2]
    rfl
  have hstale : eventStaleEpoch ⟨1 / 2, 9 / 10, 1⟩ = 121 := by
    rw [eventStaleEpoch_eq]
    have hproj : (⟨1 / 2, 9 / 10, 1⟩ : Clock3).t3 = 1 := rfl
    rw [hproj, hf3]
    decide
  refine ⟨by norm_num, by norm_num, by norm_num, hstart, hstale, ?_, ?_, ?_⟩
  · rw [hstart, hstale]; decide
  · rw [cotElement_attr_start, hstart]; rfl
  · rw [cotElement_attr_stale, hstale]; rfl

/-- C10: the `time`, `start` and `stale` attributes are the `fmtTime`
renderings of the three separate clock reads (in read order `t1`, `t2`, `t3`),
every `fmtTime` output ends in the hard-coded `.000Z` fractional field, under
a monotone clock the `time` epoch never exceeds the `start` epoch, and there
is a monotone clock whose consecutive reads straddle a second boundary. -/
theorem claim_C10 (cs u la lo al : String) (b : Option String) (c : Clock3)
    (h12 : c.t1 ≤ c.t2) :
    attrLookup (cotElement cs u la lo al b c) "time" =
      some (fmtTime (eventTimeEpoch c)) ∧
    attrLookup (cotElement cs u la lo al b c) "start" =
      some (fmtTime (eventStartEpoch c)) ∧
    attrLookup (cotElement cs u la lo al b c) "stale" =
      some (fmtTime (eventStaleEpoch c)) ∧
    (∀ s : Nat, ∃ p : String, fmtTime s = p ++ ".000Z") ∧
    eventTimeEpoch c ≤ eventStartEpoch c ∧
    (∃ cx : Clock3, cx.t1 ≤ cx.t2 ∧ eventTimeEpoch cx < eventStartEpoch cx) := by
  refine ⟨rfl, rfl, rfl, fun s => ⟨_, rfl⟩, eventEpoch_mono c h12, ?_⟩
  refine ⟨⟨1 / 2, 3 / 2, 0⟩, by norm_num, ?_⟩
  have hfa : ⌊(1 : ℚ) / 2⌋ = 0 := by rw [Int.floor_eq_iff]; norm_num
  have hfb : ⌊(3 : ℚ) / 2⌋ = 1 := by rw [Int.floor_eq_iff]; norm_num
  simp only [eventTimeEpoch, eventStartEpoch, ratFloorNonneg_eq]
  rw [hfa, hfb]
  decide

/-- Witness for C10 at the constant clock 0. -/
theorem claim_C10_witness :
    attrLookup (cotElement "a" "b" "c" "d" "e" none ⟨0, 0, 0⟩) "time" =
      some (fmtTime (eventTimeEpoch ⟨0, 0, 0⟩)) ∧
    attrLookup (cotElement "a" "b" "c" "d" "e" none ⟨0, 0, 0⟩) "start" =
      some (fmtTime (eventStartEpoch ⟨0, 0, 0⟩)) ∧
    attrLookup (cotElement "a" "b" "c" "d" "e" none ⟨0, 0, 0⟩) "stale" =
      some (fmtTime (eventStaleEpoch ⟨0, 0, 0⟩)) ∧
    (∀ s : Nat, ∃ p : String, fmtTime s = p ++ ".000Z") ∧
    eventTimeEpoch ⟨0, 0, 0⟩ ≤ eventStartEpoch ⟨0, 0, 0⟩ ∧
    (∃ cx : Clock3, cx.t1 ≤ cx.t2 ∧ eventTimeEpoch cx < eventStartEpoch cx) :=
  claim_C10 "a" "b" "c" "d" "e" none ⟨0, 0, 0⟩ le_rfl

/-- C3 (amended): the handler never raises for a packet that has the decoded
payload, provided the source-id key is present whenever the position
sub-record carries both latitude and longitude (and the send itself
succeeds); failing packets are dropped silently.  (The original claim fails:
a packet lacking the decoded payload, or lacking the source-id on a
qualifying position, raises `KeyError`, and no log line is emitted for
dropped packets; see the counterexample.) -/
theorem claim_C3_amended (fi : Option Nat) (dec : Decoded) (c : Clock3)
    (hfrom : ∀ pos : Position, dec.position = some pos →
      pos.latitude.isSome = true → pos.longitude.isSome = true →
      fi.isSome = true) :
    ∃ out : List String, (onReceive ⟨fi, some dec⟩ c true).2 = Except.ok out := by
  obtain ⟨p⟩ := dec
  cases p with
  | none => exact ⟨[], rfl⟩
  | some pos =>
    obtain ⟨la, lo, alti, bl⟩ := pos
    cases la with
    | none => exact ⟨[], rfl⟩
    | some lav =>
      cases lo with
      | none => exact ⟨[], rfl⟩
      | some lov =>
        have hf := hfrom ⟨some lav, some lov, alti, bl⟩ rfl rfl rfl
        cases fi with
        | none => simp at hf
        | some frm =>
          exact ⟨[makeCoT (callsignOf frm) (uidOf frm) (fmtFixed6 lav)
            (fmtFixed6 lov) "9999999.0" (battArg bl) c], rfl⟩

/-- Witness for C3 (amended): a decoded packet with no position sub-record is
dropped without an exception. -/
theorem claim_C3_witness :
    ∃ out : List String,
      (onReceive ⟨some 1, some ⟨none⟩⟩ ⟨0, 0, 0⟩ true).2 = Except.ok out :=
  claim_C3_amended (some 1) ⟨none⟩ ⟨0, 0, 0⟩ (fun _ hp => nomatch hp)

/-- C3 counterexample: a packet lacking the `decoded` key raises `KeyError`
out of the handler, and so does a position-bearing packet lacking the `from`
key — the handler does not survive every malformed packet. -/
theorem claim_C3_counterexample :
    (onReceive ⟨some 5, none⟩ ⟨0, 0, 0⟩ true).2 = Except.error PyErr.keyError ∧
    (onReceive ⟨none, some ⟨some ⟨some 1, some 2, none, none⟩⟩⟩ ⟨0, 0, 0⟩ true).2 =
      Except.error PyErr.keyError := ⟨rfl, rfl⟩

/-- C6: a decoded packet with no position sub-record, or with a position
sub-record lacking latitude or lacking longitude, produces no socket
operations, no datagrams and no error — it is silently skipped. -/
theorem claim_C6 (fi : Option Nat) (la lo alti : Option ℚ) (bl : Option Int)
    (c : Clock3) (sendOk : Bool) :
    onReceive ⟨fi, some ⟨none⟩⟩ c sendOk = ([], Except.ok []) ∧
    onReceive ⟨fi, some ⟨some ⟨none, lo, alti, bl⟩⟩⟩ c sendOk = ([], Except.ok []) ∧
    onReceive ⟨fi, some ⟨some ⟨la, none, alti, bl⟩⟩⟩ c sendOk = ([], Except.ok []) := by
  refine ⟨rfl, rfl, ?_⟩
  cases la <;> rfl

/-- When `makeCoT` receives a non-empty battery string, the detail child of
the built tree carries exactly one battery-status element with that value. -/
theorem batteryStatusElems_some (cs u la lo al s : String) (hs : s ≠ "")
    (c : Clock3) :
    batteryStatusElems (cotElement cs u la lo al (some s) c) =
      [Element.mk "status" [("battery", s)] [] ""] := by
  unfold cotElement
  dsimp only
  rw [if_neg hs]
  rfl

/-- C2 (amended): for every qualifying packet the single datagram is built
from the battery argument of line 133, and the built document carries a
battery-status element iff `batteryLevel` was present AND non-zero (Python
truthiness silently treats a present value of 0 as absent); for
`batteryLevel = 78` the element value is `"78"`, and with no `batteryLevel`
key there is no battery-status element.  (The original "iff present" fails at
`batteryLevel = 0`; see the counterexample.) -/
theorem claim_C2_amended (frm : Nat) (lat lon : ℚ) (alti : Option ℚ)
    (bl : Option Int) (c : Clock3) :
    (onReceive ⟨some frm, some ⟨some ⟨some lat, some lon, alti, bl⟩⟩⟩ c true).2 =
      Except.ok [makeCoT (callsignOf frm) (uidOf frm) (fmtFixed6 lat)
        (fmtFixed6 lon) "9999999.0" (battArg bl) c] ∧
    batteryStatusElems (cotElement (callsignOf frm) (uidOf frm) (fmtFixed6 lat)
        (fmtFixed6 lon) "9999999.0" (battArg bl) c) =
      (match bl with
       | some b => if b = 0 then [] else [Element.mk "status" [("battery", toString b)] [] ""]
       | none => []) ∧
    batteryStatusElems (cotElement (callsignOf frm) (uidOf frm) (fmtFixed6 lat)
        (fmtFixed6 lon) "9999999.0" (battArg (some 78)) c) =
      [Element.mk "status" [("battery", "78")] [] ""] ∧
    batteryStatusElems (cotElement (callsignOf frm) (uidOf frm) (fmtFixed6 lat)
        (fmtFixed6 lon) "9999999.0" (battArg none) c) = [] := by
  refine ⟨rfl, ?_, ?_, rfl⟩
  · cases bl with
    | none => rfl
    | some b =>
      by_cases hb : b = 0
      · subst hb; rfl
      · rw [show battArg (some b) = some (toString b) from by
            simp [battArg, hb],
          batteryStatusElems_some _ _ _ _ _ _ (int_toString_ne_empty b) c]
        dsimp only
        rw [if_neg hb]
  · rw [show battArg (some 78) = some "78" from rfl,
      batteryStatusElems_some _ _ _ _ _ _ (by decide) c]

/-- C2 counterexample: a qualifying packet whose position sub-record has
`batteryLevel = 0` (the key is present, `isSome` holds) builds a document
with no battery-status element, refuting "present iff the field was
present". -/
theorem claim_C2_counterexample :
    (Position.batteryLevel ⟨some 1, some 2, none, some 0⟩).isSome = true ∧
    (onReceive ⟨some 1, some ⟨some ⟨some 1, some 2, none, some 0⟩⟩⟩ ⟨0, 0, 0⟩ true).2 =
      Except.ok [makeCoT (callsignOf 1) (uidOf 1) (fmtFixed6 1) (fmtFixed6 2)
        "9999999.0" (battArg (some 0)) ⟨0, 0, 0⟩] ∧
    batteryStatusElems (cotElement (callsignOf 1) (uidOf 1) (fmtFixed6 1)
      (fmtFixed6 2) "9999999.0" (battArg (some 0)) ⟨0, 0, 0⟩) = [] :=
  ⟨rfl, rfl, rfl⟩

/-- Witness for C2 (amended) at a concrete qualifying packet with
`batteryLevel = 78`. -/
theorem claim_C2_witness :
    (onReceive ⟨some 1, some ⟨some ⟨some 1, some 2, none, some 78⟩⟩⟩ ⟨0, 0, 0⟩ true).2 =
      Except.ok [makeCoT (callsignOf 1) (uidOf 1) (fmtFixed6 1) (fmtFixed6 2)
        "9999999.0" (battArg (some 78)) ⟨0, 0, 0⟩] ∧
    batteryStatusElems (cotElement (callsignOf 1) (uidOf 1) (fmtFixed6 1)
        (fmtFixed6 2) "9999999.0" (battArg (some 78)) ⟨0, 0, 0⟩) =
      (match (some 78 : Option Int) with
       | some b => if b = 0 then [] else [Element.mk "status" [("battery", toString b)] [] ""]
       | none => []) ∧
    batteryStatusElems (cotElement (callsignOf 1) (uidOf 1) (fmtFixed6 1)
        (fmtFixed6 2) "9999999.0" (battArg (some 78)) ⟨0, 0, 0⟩) =
      [Element.mk "status" [("battery", "78")] [] ""] ∧
    batteryStatusElems (cotElement (callsignOf 1) (uidOf 1) (fmtFixed6 1)
        (fmtFixed6 2) "9999999.0" (battArg none) ⟨0, 0, 0⟩) = [] :=
  claim_C2_amended 1 1 2 none (some 78) ⟨0, 0, 0⟩

/-- C7: for every qualifying packet — whatever the optional altitude field
holds, and whatever the battery field holds — the dispatcher passes the fixed
sentinel `9999999.0` as the height to the builder, and the built point
element carries `hae`, `ce` and `le` all equal to `9999999.0`. -/
theorem claim_C7 (frm : Nat) (lat lon : ℚ) (alti : Option ℚ) (bl : Option Int)
    (c : Clock3) :
    (onReceive ⟨some frm, some ⟨some ⟨some lat, some lon, alti, bl⟩⟩⟩ c true).2 =
      Except.ok [makeCoT (callsignOf frm) (uidOf frm) (fmtFixed6 lat)
        (fmtFixed6 lon) "9999999.0" (battArg bl) c] ∧
    pointElems (cotElement (callsignOf frm) (uidOf frm) (fmtFixed6 lat)
        (fmtFixed6 lon) "9999999.0" (battArg bl) c) =
      [Element.mk "point" [("lat", fmtFixed6 lat), ("lon", fmtFixed6 lon),
        ("hae", "9999999.0"), ("ce", "9999999.0"), ("le", "9999999.0")] [] ""] ∧
    attrLookup (Element.mk "point" [("lat", fmtFixed6 lat), ("lon", fmtFixed6 lon),
        ("hae", "9999999.0"), ("ce", "9999999.0"), ("le", "9999999.0")] [] "")
      "hae" = some "9999999.0" ∧
    attrLookup (Element.mk "point" [("lat", fmtFixed6 lat), ("lon", fmtFixed6 lon),
        ("hae", "9999999.0"), ("ce", "9999999.0"), ("le", "9999999.0")] [] "")
      "ce" = some "9999999.0" ∧
    attrLookup (Element.mk "point" [("lat", fmtFixed6 lat), ("lon", fmtFixed6 lon),
        ("hae", "9999999.0"), ("ce", "9999999.0"), ("le", "9999999.0")] [] "")
      "le" = some "9999999.0" :=
  ⟨rfl, rfl, rfl, rfl, rfl⟩

/-- C9 (amended): for every qualifying packet the dispatcher opens a fresh
datagram socket, writes exactly one datagram carrying the full serialized
document to the configured destination, does not retry, and closes the
socket when the send succeeds; when the send raises, the error propagates
and the close is never executed.  (The original "releases the socket
unconditionally — including when the send itself fails" fails: there is no
try/finally around lines 138-140; see the counterexample.) -/
theorem claim_C9_amended (frm : Nat) (lat lon : ℚ) (alti : Option ℚ)
    (bl : Option Int) (c : Clock3) :
    (onReceive ⟨some frm, some ⟨some ⟨some lat, some lon, alti, bl⟩⟩⟩ c true).1 =
      [SockOp.openSock,
       SockOp.sendto (makeCoT (callsignOf frm) (uidOf frm) (fmtFixed6 lat)
         (fmtFixed6 lon) "9999999.0" (battArg bl) c) ATAK_HOST ATAK_PORT,
       SockOp.closeSock] ∧
    ((onReceive ⟨some frm, some ⟨some ⟨some lat, some lon, alti, bl⟩⟩⟩ c true).1.filter
      SockOp.isSend).length = 1 ∧
    (onReceive ⟨some frm, some ⟨some ⟨some lat, some lon, alti, bl⟩⟩⟩ c false).1 =
      [SockOp.openSock,
       SockOp.sendto (makeCoT (callsignOf frm) (uidOf frm) (fmtFixed6 lat)
         (fmtFixed6 lon) "9999999.0" (battArg bl) c) ATAK_HOST ATAK_PORT] ∧
    (onReceive ⟨some frm, some ⟨some ⟨some lat, some lon, alti, bl⟩⟩⟩ c false).2 =
      Except.error PyErr.osError :=
  ⟨rfl, rfl, rfl, rfl⟩

/-- C9 counterexample: on a qualifying packet whose send fails, the socket
trace is open-then-send with no close — the socket is not released when the
send raises, and the error escapes the handler. -/
theorem claim_C9_counterexample :
    (onReceive ⟨some 1, some ⟨some ⟨some 1, some 2, none, none⟩⟩⟩ ⟨0, 0, 0⟩ false).1 =
      [SockOp.openSock,
       SockOp.sendto (makeCoT (callsignOf 1) (uidOf 1) (fmtFixed6 1) (fmtFixed6 2)
         "9999999.0" none ⟨0, 0, 0⟩) ATAK_HOST ATAK_PORT] ∧
    SockOp.closeSock ∉
      (onReceive ⟨some 1, some ⟨some ⟨some 1, some 2, none, none⟩⟩⟩ ⟨0, 0, 0⟩ false).1 ∧
    (onReceive ⟨some 1, some ⟨some ⟨some 1, some 2, none, none⟩⟩⟩ ⟨0, 0, 0⟩ false).2 =
      Except.error PyErr.osError := by
  refine ⟨rfl, ?_, rfl⟩
  intro hmem
  cases hmem with
  | tail _ h =>
    cases h with
    | tail _ h2 => cases h2

/-- C8: every builder output is the XML declaration followed immediately by
the serialized element tree as one byte sequence, and the built tree has
exactly one `event` root carrying exactly the mandated attribute set
(`version`, `uid`, `time`, `start`, `stale`, `type`, `how`), with exactly one
`point` child and exactly one `detail` child among its two children. -/
theorem claim_C8 (cs u la lo al : String) (b : Option String) (c : Clock3) :
    makeCoT cs u la lo al b c =
      xmlDecl ++ serializeElement (cotElement cs u la lo al b c) ∧
    (cotElement cs u la lo al b c).name = "event" ∧
    (cotElement cs u la lo al b c).children.length = 2 ∧
    (pointElems (cotElement cs u la lo al b c)).length = 1 ∧
    (childrenNamed (cotElement cs u la lo al b c) "detail").length = 1 ∧
    (cotElement cs u la lo al b c).attrib.map Prod.fst =
      ["version", "uid", "time", "start", "stale", "type", "how"] ∧
    attrLookup (cotElement cs u la lo al b c) "version" = some "2.0" ∧
    attrLookup (cotElement cs u la lo al b c) "uid" = some u ∧
    attrLookup (cotElement cs u la lo al b c) "type" = some UNIT_TYPE ∧
    attrLookup (cotElement cs u la lo al b c) "how" = some "m-g" :=
  ⟨rfl, rfl, rfl, rfl, rfl, rfl, rfl, rfl, rfl, rfl⟩

/-- C5: the spec's end-to-end example packet produces, for any clock, exactly
one datagram to the configured destination, carrying the document whose
`uid` is `7ea452c5-a1ec-571c-a7ac-001a2b3c4d`, whose contact callsign is
`mesh-1a2b3c4d`, whose point has `lat="45.123456"`, `lon="-93.654321"`,
`hae="9999999.0"`, and which contains no battery-status element. -/
theorem claim_C5 (c : Clock3) :
    onReceive packet5 c true =
      ([SockOp.openSock,
        SockOp.sendto (makeCoT "mesh-1a2b3c4d" "7ea452c5-a1ec-571c-a7ac-001a2b3c4d"
          "45.123456" "-93.654321" "9999999.0" none c) ATAK_HOST ATAK_PORT,
        SockOp.closeSock],
       Except.ok [makeCoT "mesh-1a2b3c4d" "7ea452c5-a1ec-571c-a7ac-001a2b3c4d"
         "45.123456" "-93.654321" "9999999.0" none c]) ∧
    attrLookup (cotElement "mesh-1a2b3c4d" "7ea452c5-a1ec-571c-a7ac-001a2b3c4d"
        "45.123456" "-93.654321" "9999999.0" none c) "uid" =
      some "7ea452c5-a1ec-571c-a7ac-001a2b3c4d" ∧
    contactElems (cotElement "mesh-1a2b3c4d" "7ea452c5-a1ec-571c-a7ac-001a2b3c4d"
        "45.123456" "-93.654321" "9999999.0" none c) =
      [Element.mk "contact" [("callsign", "mesh-1a2b3c4d")] [] ""] ∧
    pointElems (cotElement "mesh-1a2b3c4d" "7ea452c5-a1ec-571c-a7ac-001a2b3c4d"
        "45.123456" "-93.654321" "9999999.0" none c) =
      [Element.mk "point" [("lat", "45.123456"), ("lon", "-93.654321"),
        ("hae", "9999999.0"), ("ce", "9999999.0"), ("le", "9999999.0")] [] ""] ∧
    batteryStatusElems (cotElement "mesh-1a2b3c4d" "7ea452c5-a1ec-571c-a7ac-001a2b3c4d"
        "45.123456" "-93.654321" "9999999.0" none c) = [] := by
  refine ⟨?_, rfl, rfl, rfl, rfl⟩
  have h1 : "mesh-1a2b3c4d" = callsignOf 0x1A2B3C4D := rfl
  have h2 : "7ea452c5-a1ec-571c-a7ac-001a2b3c4d" = uidOf 0x1A2B3C4D := rfl
  have hq3 : ((45123456 : ℚ) / 1000000) =
      Rat.mk' 705054 15625 (by decide) (by decide) := by
    rw [Rat.mk'_eq_divInt, Rat.divInt_eq_div]
    norm_num
  have hq4 : ((-93654321 : ℚ) / 1000000) =
      Rat.mk' (-93654321) 1000000 (by decide) (by decide) := by
    rw [Rat.mk'_eq_divInt, Rat.divInt_eq_div]
    norm_num
  have h3 : "45.123456" = fmtFixed6 ((45123456 : ℚ) / 1000000) := by rw [hq3]; rfl
  have h4 : "-93.654321" = fmtFixed6 ((-93654321 : ℚ) / 1000000) := by rw [hq4]; rfl
  rw [h1, h2, h3, h4]
  rfl
